import Mathlib

/-!
Shallow embedding of the simulation core of `src/vite.config.js`
(`runSimulation` and `calculateMetrics`) of the bioslurry-simulator
repository, together with proofs that settle the specification claims.

Modelling conventions:
* JavaScript 64-bit floats are modelled by exact rationals (`ℚ`).  Where a
  claim is specifically about the IEEE special values produced by the
  removal-percentage computation (division by the initial total mass,
  which can be zero), the computation is carried out in `JsNum`, a type of
  rationals extended with `posInf`, `negInf` and `nan`, whose operations
  follow the JavaScript semantics of `-`, `*`, `/`, `Math.max`, `Math.min`
  and `>=` on those special values.
* The JavaScript `for (let t = 0; t <= t_final; t += dt)` loop accumulates
  `t` by repeated addition of `dt`; over `ℚ` this is exact, so the loop
  performs `⌊t_final / dt⌋ + 1` iterations when `0 < dt` and
  `0 ≤ t_final`, and `0` iterations when `t_final < 0`.  When `dt ≤ 0`
  and `0 ≤ t_final` the source loop never terminates; `runSimulation`
  returns `none` in exactly that case.
* `calculateMetrics` dereferences the selected snapshots unconditionally;
  on an empty trajectory the JavaScript code throws (property access on
  `undefined`).  The embedding returns `Option Metrics`, with `none`
  modelling that error.
-/

namespace BioSlurry

/-- JavaScript number semantics restricted to what the removal-percentage
computation needs: exact rationals plus the IEEE special values. -/
inductive JsNum where
  | num (q : ℚ)
  | posInf
  | negInf
  | nan
deriving DecidableEq

namespace JsNum

/-- JavaScript subtraction on `JsNum` (only the cases arising from
finite minuends matter for `1 - C_total / C_total_0`). -/
def sub : JsNum → JsNum → JsNum
  | nan, _ => nan
  | _, nan => nan
  | num a, num b => num (a - b)
  | num _, posInf => negInf
  | num _, negInf => posInf
  | posInf, num _ => posInf
  | posInf, posInf => nan
  | posInf, negInf => posInf
  | negInf, num _ => negInf
  | negInf, posInf => negInf
  | negInf, negInf => nan

/-- JavaScript multiplication of a finite number by a `JsNum`
(used for `100 * (...)`). -/
def mulNum (a : ℚ) : JsNum → JsNum
  | nan => nan
  | num b => num (a * b)
  | posInf => if 0 < a then posInf else if a < 0 then negInf else nan
  | negInf => if 0 < a then negInf else if a < 0 then posInf else nan

/-- JavaScript division of two finite numbers: `a / 0` is `NaN` when
`a = 0` and a signed infinity otherwise. -/
def divNum (a b : ℚ) : JsNum :=
  if b = 0 then
    if a = 0 then nan else if 0 < a then posInf else negInf
  else num (a / b)

/-- `Math.max` (returns `NaN` if either argument is `NaN`). -/
def jmax : JsNum → JsNum → JsNum
  | nan, _ => nan
  | _, nan => nan
  | num a, num b => num (max a b)
  | posInf, _ => posInf
  | _, posInf => posInf
  | negInf, x => x
  | x, negInf => x

/-- `Math.min` (returns `NaN` if either argument is `NaN`). -/
def jmin : JsNum → JsNum → JsNum
  | nan, _ => nan
  | _, nan => nan
  | num a, num b => num (min a b)
  | negInf, _ => negInf
  | _, negInf => negInf
  | posInf, x => x
  | x, posInf => x

/-- The JavaScript comparison `x >= q` against a finite literal
(`NaN >= q` is `false`). -/
def geNum (x : JsNum) (q : ℚ) : Bool :=
  match x with
  | num a => decide (q ≤ a)
  | posInf => true
  | negInf => false
  | nan => false

end JsNum

/-- The parameter record destructured at the top of `runSimulation`
(same field names as the source). -/
structure Params where
  C_G_aq_0 : ℚ
  C_G_s_0 : ℚ
  C_A_aq_0 : ℚ
  X_0 : ℚ
  k_max : ℚ
  K_s : ℚ
  mu_max : ℚ
  k_d : ℚ
  Y_x : ℚ
  K_d : ℚ
  k_sorp : ℚ
  theta : ℚ
  Y_A : ℚ
  k_A : ℚ
  t_final : ℚ
  dt : ℚ

/-- The four mutable state variables of the integration loop. -/
structure SimState where
  C_G_aq : ℚ
  C_G_s : ℚ
  C_A_aq : ℚ
  X : ℚ

/-- One entry of the `results` array pushed per loop iteration
(same field names as the source; `removal_percent` keeps the JavaScript
special-value semantics). -/
structure Snapshot where
  time_h : ℚ
  time_days : ℚ
  C_G_aq : ℚ
  C_G_s : ℚ
  C_A_aq : ℚ
  X : ℚ
  C_total : ℚ
  removal_percent : JsNum
  monod_factor : ℚ
  r_degradation : ℚ
  r_sorption : ℚ

/-- The epsilon guard `1e-10` in the Monod denominator. -/
def eps : ℚ := 1 / 10 ^ 10

/-- `monod = C_G_aq / (K_s + C_G_aq + 1e-10)`. -/
def monod (p : Params) (st : SimState) : ℚ :=
  st.C_G_aq / (p.K_s + st.C_G_aq + eps)

/-- `r_degradation = k_max * monod * X`. -/
def r_degradation (p : Params) (st : SimState) : ℚ :=
  p.k_max * monod p st * st.X

/-- `r_sorption = k_sorp * (C_G_aq - C_G_s / K_d)`. -/
def r_sorption (p : Params) (st : SimState) : ℚ :=
  p.k_sorp * (st.C_G_aq - st.C_G_s / p.K_d)

/-- `r_growth = mu_max * monod * X`. -/
def r_growth (p : Params) (st : SimState) : ℚ :=
  p.mu_max * monod p st * st.X

/-- `r_death = k_d * X`. -/
def r_death (p : Params) (st : SimState) : ℚ :=
  p.k_d * st.X

/-- `r_AMPA_formation = Y_A * r_degradation`. -/
def r_AMPA_formation (p : Params) (st : SimState) : ℚ :=
  p.Y_A * r_degradation p st

/-- `r_AMPA_degradation = k_A * C_A_aq`. -/
def r_AMPA_degradation (p : Params) (st : SimState) : ℚ :=
  p.k_A * st.C_A_aq

/-- The end-of-iteration state update: forward-Euler step followed by the
`Math.max(0, ...)` clamps, exactly as in the four assignment lines of the
source loop. -/
def stepState (p : Params) (st : SimState) : SimState where
  C_G_aq := max 0 (st.C_G_aq + (-(r_degradation p st) - r_sorption p st) * p.dt)
  C_G_s := max 0 (st.C_G_s + (r_sorption p st / p.theta) * p.dt)
  C_A_aq := max 0 (st.C_A_aq + (r_AMPA_formation p st - r_AMPA_degradation p st) * p.dt)
  X := max 0 (st.X + (r_growth p st - r_death p st) * p.dt)

/-- The reference mass `C_total_0 = C_G_aq_0 + theta * C_G_s_0`. -/
def C_total_0 (p : Params) : ℚ :=
  p.C_G_aq_0 + p.theta * p.C_G_s_0

/-- The per-iteration total mass `C_total = C_G_aq + theta * C_G_s`. -/
def Ctot (p : Params) (st : SimState) : ℚ :=
  st.C_G_aq + p.theta * st.C_G_s

/-- The snapshot pushed onto `results` for the current (pre-update) state,
including the removal-percentage computation
`Math.min(100, Math.max(0, 100 * (1 - C_total / C_total_0)))`
carried out with JavaScript number semantics. -/
def mkSnapshot (p : Params) (t : ℚ) (st : SimState) : Snapshot where
  time_h := t
  time_days := t / 24
  C_G_aq := max 0 st.C_G_aq
  C_G_s := max 0 st.C_G_s
  C_A_aq := max 0 st.C_A_aq
  X := max 0 st.X
  C_total := max 0 (Ctot p st)
  removal_percent :=
    JsNum.jmin (JsNum.num 100) (JsNum.jmax (JsNum.num 0)
      (JsNum.mulNum 100 (JsNum.sub (JsNum.num 1)
        (JsNum.divNum (Ctot p st) (C_total_0 p)))))
  monod_factor := monod p st
  r_degradation := r_degradation p st
  r_sorption := r_sorption p st

/-- The integration loop, fuelled by the iteration count: each iteration
pushes the snapshot for the current state and time, then advances the
state by `stepState` and the time by `dt`. -/
def simLoop (p : Params) : SimState → ℚ → ℕ → List Snapshot
  | _, _, 0 => []
  | st, t, n + 1 => mkSnapshot p t st :: simLoop p (stepState p st) (t + p.dt) n

/-- Number of iterations of `for (let t = 0; t <= t_final; t += dt)` over
exact rationals: the values taken by `t` are `0, dt, 2*dt, …`, so for
`0 < dt` and `0 ≤ t_final` the body runs for every `k` with
`k * dt ≤ t_final`, i.e. `⌊t_final / dt⌋ + 1` times, and for
`t_final < 0` it runs zero times. -/
def numIters (p : Params) : ℕ :=
  if 0 < p.dt ∧ 0 ≤ p.t_final then (⌊p.t_final / p.dt⌋).toNat + 1 else 0

/-- The initial state taken from the parameter record. -/
def initState (p : Params) : SimState where
  C_G_aq := p.C_G_aq_0
  C_G_s := p.C_G_s_0
  C_A_aq := p.C_A_aq_0
  X := p.X_0

/-- `runSimulation`: returns the list of snapshots; `none` models the
non-terminating loop obtained when `dt ≤ 0 ≤ t_final` (the source code
performs no input validation whatsoever). -/
def runSimulation (p : Params) : Option (List Snapshot) :=
  if 0 < p.dt ∨ p.t_final < 0 then
    some (simLoop p (initState p) 0 (numIters p))
  else none

/-- The metrics record returned by `calculateMetrics`
(same field names as the source; `T90 = none` models `null`). -/
structure Metrics where
  removal_day3 : JsNum
  removal_day7 : JsNum
  removal_day14 : JsNum
  C_G_aq_day3 : ℚ
  C_G_aq_day7 : ℚ
  C_G_aq_day14 : ℚ
  X_max : ℚ
  t_X_max : ℚ
  X_final : ℚ
  C_A_peak : ℚ
  t_A_peak : ℚ
  T90 : Option ℚ
  final_removal : JsNum

/-- `Math.abs(r.time_days - d) < 0.1`. -/
def nearDay (d : ℚ) (r : Snapshot) : Bool :=
  decide (|r.time_days - d| < 1 / 10)

/-- `results.find(r => Math.abs(r.time_days - 3) < 0.1) || results[0]`
(`undefined`, i.e. `none`, only on an empty array). -/
def day3Sel (results : List Snapshot) : Option Snapshot :=
  (results.find? (nearDay 3)).orElse fun _ => results.head?

/-- `results.find(r => Math.abs(r.time_days - 7) < 0.1) || results[0]`. -/
def day7Sel (results : List Snapshot) : Option Snapshot :=
  (results.find? (nearDay 7)).orElse fun _ => results.head?

/-- `results.find(r => Math.abs(r.time_days - 14) < 0.1) ||
results[results.length - 1]` — the fallback is the **last** element. -/
def day14Sel (results : List Snapshot) : Option Snapshot :=
  (results.find? (nearDay 14)).orElse fun _ => results.getLast?

/-- `results.reduce((max, r) => f(r) > f(max) ? r : max, results[0])`:
the first-occurring maximiser of `f`, `none` on an empty array. -/
def reduceMax (f : Snapshot → ℚ) (results : List Snapshot) : Option Snapshot :=
  match results with
  | [] => none
  | h :: _ => some (results.foldl (fun m r => if f m < f r then r else m) h)

/-- `results.find(r => r.removal_percent >= 90)` mapped to its
`time_days`, i.e. the `T90` computation (`none` models `null`). -/
def T90sel (results : List Snapshot) : Option ℚ :=
  (results.find? (fun r => r.removal_percent.geNum 90)).map (fun r => r.time_days)

/-- `calculateMetrics`: a read-only reduction of the results array.
`none` models the exception thrown on an empty array (every selector
dereferences its snapshot when the return object is built). -/
def calculateMetrics (results : List Snapshot) : Option Metrics := do
  let day3 ← day3Sel results
  let day7 ← day7Sel results
  let day14 ← day14Sel results
  let X_max_point ← reduceMax (fun r => r.X) results
  let AMPA_peak ← reduceMax (fun r => r.C_A_aq) results
  let last ← results.getLast?
  some
    { removal_day3 := day3.removal_percent
      removal_day7 := day7.removal_percent
      removal_day14 := day14.removal_percent
      C_G_aq_day3 := day3.C_G_aq
      C_G_aq_day7 := day7.C_G_aq
      C_G_aq_day14 := day14.C_G_aq
      X_max := X_max_point.X
      t_X_max := X_max_point.time_days
      X_final := last.X
      C_A_peak := AMPA_peak.C_A_aq
      t_A_peak := AMPA_peak.time_days
      T90 := T90sel results
      final_removal := last.removal_percent }

/-! ### Loop lemmas -/

/-- `n`-fold application of the state update. -/
def stepN (p : Params) : ℕ → SimState → SimState
  | 0, st => st
  | n + 1, st => stepState p (stepN p n st)

lemma stepN_comm (p : Params) (n : ℕ) (st : SimState) :
    stepN p n (stepState p st) = stepState p (stepN p n st) := by
  induction n with
  | zero => rfl
  | succ n ih => simp only [stepN, ih]

lemma simLoop_length (p : Params) :
    ∀ (n : ℕ) (st : SimState) (t : ℚ), (simLoop p st t n).length = n := by
  intro n
  induction n with
  | zero => intro st t; rfl
  | succ n ih => intro st t; simp only [simLoop, List.length_cons, ih]

lemma simLoop_head (p : Params) (n : ℕ) (st : SimState) (t : ℚ) :
    (simLoop p st t (n + 1)).head? = some (mkSnapshot p t st) := rfl

lemma simLoop_getLast (p : Params) :
    ∀ (n : ℕ) (st : SimState) (t : ℚ),
      (simLoop p st t (n + 1)).getLast? =
        some (mkSnapshot p (t + (n : ℚ) * p.dt) (stepN p n st)) := by
  intro n
  induction n with
  | zero => intro st t; simp [simLoop, stepN]
  | succ n ih =>
      intro st t
      have hcons : simLoop p st t (n + 1 + 1) =
          mkSnapshot p t st ::
            (mkSnapshot p (t + p.dt) (stepState p st) ::
              simLoop p (stepState p (stepState p st)) (t + p.dt + p.dt) n) := rfl
      rw [hcons, List.getLast?_cons_cons, ← simLoop, ih (stepState p st) (t + p.dt),
        stepN_comm]
      have htime : t + p.dt + (n : ℚ) * p.dt = t + ((n : ℚ) + 1) * p.dt := by ring
      rw [htime]
      push_cast
      rfl

/-- Every snapshot the loop emits is `mkSnapshot` of a state reachable from
the initial one, so any property preserved by `stepState` holds of the
state behind every snapshot. -/
lemma simLoop_mem_inv (p : Params) (P : SimState → Prop)
    (hstep : ∀ st, P st → P (stepState p st)) :
    ∀ (n : ℕ) (st : SimState) (t : ℚ), P st →
      ∀ r ∈ simLoop p st t n, ∃ t' st', P st' ∧ r = mkSnapshot p t' st' := by
  intro n
  induction n with
  | zero => intro st t _ r hr; simp [simLoop] at hr
  | succ n ih =>
      intro st t hP r hr
      rw [simLoop] at hr
      rcases List.mem_cons.mp hr with h | h
      · exact ⟨t, st, hP, h⟩
      · exact ih (stepState p st) (t + p.dt) (hstep st hP) r h

/-- `List.find?` returns the head of the first position whose element
satisfies the predicate. -/
lemma find?_append_first {α : Type} (q : α → Bool) :
    ∀ (l₁ : List α) (x : α) (l₂ : List α),
      (∀ y ∈ l₁, q y = false) → q x = true →
        List.find? q (l₁ ++ x :: l₂) = some x := by
  intro l₁
  induction l₁ with
  | nil => intro x l₂ _ hx; simpa using List.find?_cons_of_pos l₂ hx
  | cons a l ih =>
      intro x l₂ hneg hx
      have ha : ¬ q a = true := by
        simp [hneg a (List.mem_cons_self a l)]
      rw [List.cons_append, List.find?_cons_of_neg _ ha]
      exact ih x l₂ (fun y hy => hneg y (List.mem_cons_of_mem a hy)) hx

/-! ### Concrete parameter sets -/

/-- The default parameter set of the source (`defaultParams`), which is
also the golden scenario of the specification:
`C_G_aq_0=100, C_G_s_0=0, C_A_aq_0=0, X_0=10, k_max=0.08, K_s=20,
mu_max=0.05, k_d=0.005, Y_x=0.3, K_d=50, k_sorp=0.1, theta=0.1, Y_A=0.6,
k_A=0.02, t_final=336, dt=0.5`. -/
def goldenParams : Params :=
  ⟨100, 0, 0, 10, 2/25, 20, 1/20, 1/200, 3/10, 50, 1/10, 1/10, 3/5, 1/50, 336, 1/2⟩

/-- A valid parameter set with no biomass and no sorption (so the state is
constant) and a two-day horizon sampled twice a day: its trajectory has
snapshots at days 0, 1/2 and 1 only. -/
def shortParams : Params :=
  ⟨100, 0, 0, 0, 2/25, 20, 1/20, 1/200, 3/10, 50, 0, 1/10, 3/5, 1/50, 24, 12⟩

/-! ### Option plumbing for `calculateMetrics` -/

lemma orElse_isSome {α : Type} (o : Option α) (f : Unit → Option α)
    (hf : (f ()).isSome = true) : (o.orElse f).isSome = true := by
  cases o <;> simp [Option.orElse, hf]

lemma calculateMetrics_proj {results : List Snapshot} {m : Metrics}
    (hm : calculateMetrics results = some m) :
    (∃ a, day3Sel results = some a ∧
      m.removal_day3 = a.removal_percent ∧ m.C_G_aq_day3 = a.C_G_aq) ∧
    (∃ a, day7Sel results = some a ∧
      m.removal_day7 = a.removal_percent ∧ m.C_G_aq_day7 = a.C_G_aq) ∧
    (∃ a, day14Sel results = some a ∧
      m.removal_day14 = a.removal_percent ∧ m.C_G_aq_day14 = a.C_G_aq) ∧
    m.T90 = T90sel results := by
  unfold calculateMetrics at hm
  simp only [bind, Option.bind_eq_some] at hm
  obtain ⟨a3, h3, a7, h7, a14, h14, ax, hx, aa, ha, al, hl, hm⟩ := hm
  rcases Option.some.injEq .. ▸ hm with rfl
  exact ⟨⟨a3, h3, rfl, rfl⟩, ⟨a7, h7, rfl, rfl⟩, ⟨a14, h14, rfl, rfl⟩, rfl⟩

lemma find_orElse_of_first {α : Type} (q : α → Bool) (g : Unit → Option α)
    (pre : List α) (x : α) (post : List α)
    (hpre : ∀ y ∈ pre, q y = false) (hx : q x = true) :
    (List.find? q (pre ++ x :: post)).orElse g = some x := by
  rw [find?_append_first q pre x post hpre hx]; rfl

lemma find_orElse_of_none {α : Type} (q : α → Bool) (g : Unit → Option α)
    (l : List α) (hall : ∀ y ∈ l, q y = false) :
    (List.find? q l).orElse g = g () := by
  rw [List.find?_eq_none.mpr (fun x hx => by simp [hall x hx])]; rfl

/-! ### Claim C9 -/

/-- C9 (confirmed): `calculateMetrics` on an empty trajectory produces the
error result (`none`, modelling the exception the source throws when it
dereferences the selected snapshots), and on any non-empty trajectory it
returns a metrics summary. -/
theorem calculateMetrics_empty_error :
    calculateMetrics ([] : List Snapshot) = none ∧
    ∀ results : List Snapshot, results ≠ [] →
      (calculateMetrics results).isSome = true := by
  refine ⟨rfl, ?_⟩
  intro results hne
  obtain ⟨h0, tl, rfl⟩ := List.exists_cons_of_ne_nil hne
  obtain ⟨al, hal⟩ := Option.isSome_iff_exists.mp
    (show (h0 :: tl).getLast?.isSome = true by simp [List.getLast?_isSome])
  cases hf3 : List.find? (nearDay 3) (h0 :: tl) <;>
    cases hf7 : List.find? (nearDay 7) (h0 :: tl) <;>
      cases hf14 : List.find? (nearDay 14) (h0 :: tl) <;>
        simp [calculateMetrics, bind, day3Sel, day7Sel, day14Sel, hf3, hf7, hf14,
          hal, reduceMax, Option.orElse]

/-- Witness for C9: a concrete one-snapshot trajectory yields a summary. -/
theorem calculateMetrics_empty_error_w :
    (calculateMetrics [⟨120, 5, 50, 0, 0, 10, 50, JsNum.num 95, 0, 0, 0⟩]).isSome = true :=
  calculateMetrics_empty_error.2 _ (by simp)

/-! ### Claim C7 -/

/-- C7 (confirmed): the `T90` field of the summary is the `time_days` of
the first snapshot in trajectory order whose `removal_percent >= 90`
(JavaScript comparison, so `NaN` never qualifies), and is `none`
(JavaScript `null`) when no snapshot qualifies. -/
theorem T90_first_crossing (results : List Snapshot) (m : Metrics)
    (hm : calculateMetrics results = some m) :
    ((∀ r ∈ results, r.removal_percent.geNum 90 = false) → m.T90 = none) ∧
    (∀ pre x post, results = pre ++ x :: post →
      (∀ y ∈ pre, y.removal_percent.geNum 90 = false) →
      x.removal_percent.geNum 90 = true → m.T90 = some x.time_days) := by
  have hT := (calculateMetrics_proj hm).2.2.2
  constructor
  · intro hnone
    rw [hT]
    unfold T90sel
    rw [List.find?_eq_none.mpr (fun x hx => by simp [hnone x hx])]
    rfl
  · intro pre x post hsplit hpre hx
    rw [hT]
    unfold T90sel
    rw [hsplit, find?_append_first _ pre x post hpre hx]
    rfl

/-- A one-snapshot trajectory whose removal percentage is 95 at day 5. -/
def wSnapB : Snapshot := ⟨120, 5, 50, 0, 0, 10, 50, JsNum.num 95, 0, 0, 0⟩

/-- The metrics summary of `[wSnapB]`. -/
def wMetricsB : Metrics :=
  ⟨JsNum.num 95, JsNum.num 95, JsNum.num 95, 50, 50, 50, 10, 5, 10, 0, 5,
    some 5, JsNum.num 95⟩

lemma calc_wSnapB : calculateMetrics [wSnapB] = some wMetricsB := by
  have hne : nearDay 3 wSnapB = false ∧ nearDay 7 wSnapB = false ∧
      nearDay 14 wSnapB = false := by
    refine ⟨?_, ?_, ?_⟩ <;>
      · simp only [nearDay, wSnapB, decide_eq_false_iff_not, abs_sub_lt_iff,
          not_and_or, not_lt]
        norm_num
  have hge : wSnapB.removal_percent.geNum 90 = true := by
    simp only [wSnapB, JsNum.geNum, decide_eq_true_eq]
    norm_num
  have h1 := hne.1
  have h2 := hne.2.1
  have h3 := hne.2.2
  simp only [wSnapB] at h1 h2 h3 hge
  simp [calculateMetrics, bind, day3Sel, day7Sel, day14Sel, T90sel, reduceMax,
    List.find?, h1, h2, h3, hge, Option.orElse, wMetricsB, wSnapB]

/-- Witness for C7: on `[wSnapB]` the first (and only) snapshot has
removal 95 ≥ 90 at day 1/2, and `T90` is 1/2. -/
theorem T90_first_crossing_w : wMetricsB.T90 = some (5 : ℚ) :=
  (T90_first_crossing [wSnapB] wMetricsB calc_wSnapB).2 [] wSnapB []
    rfl (by simp) (by simp only [wSnapB, JsNum.geNum, decide_eq_true_eq]; norm_num)

/-! ### Claim C8 -/

/-- C8 (confirmed): `runSimulation` is a pure function of the sixteen
parameter fields — two invocations on identical inputs produce identical
trajectories (the embedding is deterministic; the source has no stochastic
element). -/
theorem runSimulation_deterministic (p q : Params)
    (h1 : p.C_G_aq_0 = q.C_G_aq_0) (h2 : p.C_G_s_0 = q.C_G_s_0)
    (h3 : p.C_A_aq_0 = q.C_A_aq_0) (h4 : p.X_0 = q.X_0)
    (h5 : p.k_max = q.k_max) (h6 : p.K_s = q.K_s)
    (h7 : p.mu_max = q.mu_max) (h8 : p.k_d = q.k_d)
    (h9 : p.Y_x = q.Y_x) (h10 : p.K_d = q.K_d)
    (h11 : p.k_sorp = q.k_sorp) (h12 : p.theta = q.theta)
    (h13 : p.Y_A = q.Y_A) (h14 : p.k_A = q.k_A)
    (h15 : p.t_final = q.t_final) (h16 : p.dt = q.dt) :
    runSimulation p = runSimulation q := by
  obtain ⟨a1, a2, a3, a4, a5, a6, a7, a8, a9, a10, a11, a12, a13, a14, a15, a16⟩ := p
  obtain ⟨b1, b2, b3, b4, b5, b6, b7, b8, b9, b10, b11, b12, b13, b14, b15, b16⟩ := q
  simp only at h1 h2 h3 h4 h5 h6 h7 h8 h9 h10 h11 h12 h13 h14 h15 h16
  subst h1 h2 h3 h4 h5 h6 h7 h8 h9 h10 h11 h12 h13 h14 h15 h16
  rfl

/-- Witness for C8 at the golden parameter set. -/
theorem runSimulation_deterministic_w :
    runSimulation goldenParams = runSimulation goldenParams :=
  runSimulation_deterministic goldenParams goldenParams
    rfl rfl rfl rfl rfl rfl rfl rfl rfl rfl rfl rfl rfl rfl rfl rfl

/-! ### Claim C1 -/

/-- C1 (amended): each day lookup picks the first snapshot in trajectory
order within 0.1 day of its target; when none qualifies, the day-3 and
day-7 lookups fall back to the **first** snapshot, but the day-14 lookup
falls back to the **last** snapshot. -/
theorem day_lookup_amended (results : List Snapshot) (h : results ≠ []) :
    (∀ pre x post, results = pre ++ x :: post →
      (∀ y ∈ pre, nearDay 3 y = false) → nearDay 3 x = true →
        day3Sel results = some x) ∧
    ((∀ r ∈ results, nearDay 3 r = false) →
        day3Sel results = some (results.head h)) ∧
    (∀ pre x post, results = pre ++ x :: post →
      (∀ y ∈ pre, nearDay 7 y = false) → nearDay 7 x = true →
        day7Sel results = some x) ∧
    ((∀ r ∈ results, nearDay 7 r = false) →
        day7Sel results = some (results.head h)) ∧
    (∀ pre x post, results = pre ++ x :: post →
      (∀ y ∈ pre, nearDay 14 y = false) → nearDay 14 x = true →
        day14Sel results = some x) ∧
    ((∀ r ∈ results, nearDay 14 r = false) →
        day14Sel results = some (results.getLast h)) := by
  refine ⟨?_, ?_, ?_, ?_, ?_, ?_⟩
  · intro pre x post hsplit hpre hx
    rw [day3Sel, hsplit]
    exact find_orElse_of_first _ _ pre x post hpre hx
  · intro hall
    rw [day3Sel, find_orElse_of_none _ _ _ hall]
    exact List.head?_eq_head h
  · intro pre x post hsplit hpre hx
    rw [day7Sel, hsplit]
    exact find_orElse_of_first _ _ pre x post hpre hx
  · intro hall
    rw [day7Sel, find_orElse_of_none _ _ _ hall]
    exact List.head?_eq_head h
  · intro pre x post hsplit hpre hx
    rw [day14Sel, hsplit]
    exact find_orElse_of_first _ _ pre x post hpre hx
  · intro hall
    rw [day14Sel, find_orElse_of_none _ _ _ hall]
    exact List.getLast?_eq_getLast _ h

/-- Witness for C1's amended statement: on the one-snapshot trajectory
`[wSnapB]` (whose sample sits at day 5, outside every tolerance window)
the day-3 lookup falls back to the first snapshot. -/
theorem day_lookup_amended_w : day3Sel [wSnapB] = some wSnapB :=
  (day_lookup_amended [wSnapB] (by simp)).2.1 (by
    intro r hr
    rcases List.mem_singleton.mp hr with rfl
    simp only [nearDay, wSnapB, decide_eq_false_iff_not, abs_sub_lt_iff,
      not_and_or, not_lt]
    norm_num)

/-- The constant state of `shortParams` trajectories. -/
lemma shortParams_step :
    stepState shortParams ⟨100, 0, 0, 0⟩ = ⟨100, 0, 0, 0⟩ := by
  simp [stepState, r_degradation, r_sorption, r_growth, r_death,
    r_AMPA_formation, r_AMPA_degradation, monod, shortParams]

lemma shortParams_run :
    runSimulation shortParams =
      some [mkSnapshot shortParams 0 ⟨100, 0, 0, 0⟩,
            mkSnapshot shortParams 12 ⟨100, 0, 0, 0⟩,
            mkSnapshot shortParams 24 ⟨100, 0, 0, 0⟩] := by
  have hn : numIters shortParams = 3 := by
    rw [numIters, if_pos (by constructor <;> norm_num [shortParams])]
    norm_num [shortParams]
    decide
  rw [runSimulation, if_pos (Or.inl (by norm_num [shortParams]))]
  rw [hn]
  have h0 : initState shortParams = ⟨100, 0, 0, 0⟩ := rfl
  rw [h0]
  simp [simLoop, shortParams_step]
  norm_num [shortParams]

/-- Counterexample to C1 as stated: for the valid parameter set
`shortParams` no snapshot lies within 0.1 day of any of the three targets,
yet the day-14 lookup selects the last snapshot, not the first one. -/
theorem day14_fallback_cex :
    ∃ tr, runSimulation shortParams = some tr ∧
      (∀ r ∈ tr, nearDay 3 r = false ∧ nearDay 7 r = false ∧
        nearDay 14 r = false) ∧
      day14Sel tr = tr.getLast? ∧ day14Sel tr ≠ tr.head? := by
  refine ⟨_, shortParams_run, ?_, ?_, ?_⟩
  · intro r hr
    have htd : ∀ t : ℚ, (mkSnapshot shortParams t ⟨100, 0, 0, 0⟩).time_days = t / 24 := fun _ => rfl
    simp only [List.mem_cons, List.not_mem_nil, or_false] at hr
    rcases hr with rfl | rfl | rfl
    · refine ⟨?_, ?_, ?_⟩ <;>
        · simp only [nearDay, htd, decide_eq_false_iff_not, abs_sub_lt_iff,
            not_and_or, not_lt]
          norm_num
    · refine ⟨?_, ?_, ?_⟩ <;>
        · simp only [nearDay, htd, decide_eq_false_iff_not, abs_sub_lt_iff,
            not_and_or, not_lt]
          norm_num
    · refine ⟨?_, ?_, ?_⟩ <;>
        · simp only [nearDay, htd, decide_eq_false_iff_not, abs_sub_lt_iff,
            not_and_or, not_lt]
          norm_num
  · rw [day14Sel, find_orElse_of_none]
    intro y hy
    have htd : ∀ t : ℚ, (mkSnapshot shortParams t ⟨100, 0, 0, 0⟩).time_days = t / 24 := fun _ => rfl
    simp only [List.mem_cons, List.not_mem_nil, or_false] at hy
    rcases hy with rfl | rfl | rfl
    · simp only [nearDay, htd, decide_eq_false_iff_not, abs_sub_lt_iff,
        not_and_or, not_lt]
      norm_num
    · simp only [nearDay, htd, decide_eq_false_iff_not, abs_sub_lt_iff,
        not_and_or, not_lt]
      norm_num
    · simp only [nearDay, htd, decide_eq_false_iff_not, abs_sub_lt_iff,
        not_and_or, not_lt]
      norm_num
  · intro heq
    rw [day14Sel, find_orElse_of_none] at heq
    · have h1 : (mkSnapshot shortParams 24 ⟨100, 0, 0, 0⟩) =
          (mkSnapshot shortParams 0 ⟨100, 0, 0, 0⟩) := by
        have h2 := heq
        simp only [List.getLast?, List.head?] at h2
        exact Option.some.inj h2
      have h3 := congrArg Snapshot.time_h h1
      simp only [mkSnapshot] at h3
      norm_num at h3
    · intro y hy
      have htd : ∀ t : ℚ, (mkSnapshot shortParams t ⟨100, 0, 0, 0⟩).time_days = t / 24 := fun _ => rfl
      simp only [List.mem_cons, List.not_mem_nil, or_false] at hy
      rcases hy with rfl | rfl | rfl
      · simp only [nearDay, htd, decide_eq_false_iff_not, abs_sub_lt_iff,
          not_and_or, not_lt]
        norm_num
      · simp only [nearDay, htd, decide_eq_false_iff_not, abs_sub_lt_iff,
          not_and_or, not_lt]
        norm_num
      · simp only [nearDay, htd, decide_eq_false_iff_not, abs_sub_lt_iff,
          not_and_or, not_lt]
        norm_num

/-! ### Claim C2 -/

/-- C2 (amended): `runSimulation` performs no input validation.  With
`t_final < 0` it returns the empty trajectory; with `0 ≤ t_final < dt`
(which covers `dt > t_final` for valid positive durations) it returns a
one-snapshot trajectory; and with `dt ≤ 0 ≤ t_final` the source loop
never terminates (modelled by `none`).  In no case is an
invalid-parameter error raised. -/
theorem runSimulation_no_validation (p : Params) :
    (p.t_final < 0 → runSimulation p = some []) ∧
    (0 < p.dt → 0 ≤ p.t_final → p.t_final < p.dt →
      runSimulation p = some [mkSnapshot p 0 (initState p)]) ∧
    (p.dt ≤ 0 → 0 ≤ p.t_final → runSimulation p = none) := by
  refine ⟨?_, ?_, ?_⟩
  · intro h
    rw [runSimulation, if_pos (Or.inr h)]
    have hn : numIters p = 0 := by
      rw [numIters, if_neg]
      exact fun hc => absurd hc.2 (not_le.mpr h)
    rw [hn]
    rfl
  · intro h1 h2 h3
    have hfloor : ⌊p.t_final / p.dt⌋ = 0 := by
      rw [Int.floor_eq_zero_iff]
      exact ⟨div_nonneg h2 h1.le, (div_lt_one h1).mpr h3⟩
    have hn : numIters p = 1 := by
      rw [numIters, if_pos ⟨h1, h2⟩, hfloor]
      rfl
    rw [runSimulation, if_pos (Or.inl h1), hn]
    rfl
  · intro h1 h2
    rw [runSimulation, if_neg]
    rintro (hc | hc)
    · exact absurd hc (not_lt.mpr h1)
    · exact absurd hc (not_lt.mpr h2)

/-- A parameter set violating two input constraints at once:
`dt > t_final` and a negative initial metabolite concentration. -/
def invalidParams : Params :=
  ⟨100, 0, -1, 10, 2/25, 20, 1/20, 1/200, 3/10, 50, 1/10, 1/10, 3/5, 1/50, 1, 2⟩

/-- A parameter set with a negative simulated duration. -/
def negDurationParams : Params :=
  ⟨100, 0, 0, 10, 2/25, 20, 1/20, 1/200, 3/10, 50, 1/10, 1/10, 3/5, 1/50, -1, 1/2⟩

/-- Counterexample to C2 as stated: on `invalidParams` (where
`dt > t_final` and an initial concentration is negative) `runSimulation`
raises no error and returns a (one-snapshot) trajectory. -/
theorem no_validation_cex :
    invalidParams.t_final < invalidParams.dt ∧ invalidParams.C_A_aq_0 < 0 ∧
    runSimulation invalidParams =
      some [mkSnapshot invalidParams 0 (initState invalidParams)] := by
  refine ⟨by norm_num [invalidParams], by norm_num [invalidParams], ?_⟩
  have hn : numIters invalidParams = 1 := by
    rw [numIters, if_pos ⟨by norm_num [invalidParams], by norm_num [invalidParams]⟩]
    norm_num [invalidParams]
  rw [runSimulation, if_pos (Or.inl (by norm_num [invalidParams])), hn]
  rfl

/-- Witness for C2's amended statement: a negative duration yields the
empty trajectory (and no error). -/
theorem runSimulation_no_validation_w : runSimulation negDurationParams = some [] :=
  (runSimulation_no_validation negDurationParams).1 (by norm_num [negDurationParams])

/-! ### Engine-side helpers -/

lemma head_mem_run (p : Params) (hdt : 0 < p.dt) (htf : 0 ≤ p.t_final) :
    mkSnapshot p 0 (initState p) ∈ (runSimulation p).getD [] := by
  rw [runSimulation, if_pos (Or.inl hdt), Option.getD_some]
  have hn : numIters p = (⌊p.t_final / p.dt⌋).toNat + 1 := by
    rw [numIters, if_pos ⟨hdt, htf⟩]
  rw [hn]
  exact List.mem_cons_self _ _

lemma mkSnapshot_removal_range (p : Params) (t : ℚ) (st : SimState)
    (h0 : C_total_0 p ≠ 0) :
    ∃ q, (mkSnapshot p t st).removal_percent = JsNum.num q ∧
      0 ≤ q ∧ q ≤ 100 := by
  refine ⟨min 100 (max 0 (100 * (1 - Ctot p st / C_total_0 p))), ?_,
    le_min (by norm_num) (le_max_left _ _), min_le_left _ _⟩
  simp only [mkSnapshot]
  rw [JsNum.divNum, if_neg h0]
  rfl

lemma mkSnapshot_removal_zero (p : Params) (t : ℚ) (st : SimState)
    (hpos : 0 < C_total_0 p) (hge : C_total_0 p ≤ Ctot p st) :
    (mkSnapshot p t st).removal_percent = JsNum.num 0 := by
  have hv : 100 * (1 - Ctot p st / C_total_0 p) ≤ 0 := by
    have h1 : (1:ℚ) ≤ Ctot p st / C_total_0 p := (one_le_div hpos).mpr hge
    linarith
  simp only [mkSnapshot]
  rw [JsNum.divNum, if_neg (ne_of_gt hpos)]
  show JsNum.num (min 100 (max 0 (100 * (1 - Ctot p st / C_total_0 p)))) =
    JsNum.num 0
  rw [max_eq_left hv, min_eq_right (by norm_num : (0:ℚ) ≤ 100)]

/-- When the biomass is zero the degradation rate vanishes, and the two
mass clamps can only push the total mass up, so `Ctot` cannot decrease
across a step. -/
lemma Ctot_step_ge_of_X0 (p : Params) (hθ : 0 < p.theta) (st : SimState)
    (hx : st.X = 0) : Ctot p st ≤ Ctot p (stepState p st) := by
  have hθ0 : p.theta ≠ 0 := ne_of_gt hθ
  have hdeg : r_degradation p st = 0 := by rw [r_degradation, hx, mul_zero]
  have hu : st.C_G_aq + (-(r_degradation p st) - r_sorption p st) * p.dt ≤
      max 0 (st.C_G_aq + (-(r_degradation p st) - r_sorption p st) * p.dt) :=
    le_max_right _ _
  have hv : st.C_G_s + (r_sorption p st / p.theta) * p.dt ≤
      max 0 (st.C_G_s + (r_sorption p st / p.theta) * p.dt) := le_max_right _ _
  have hsum : (st.C_G_aq + (-(r_degradation p st) - r_sorption p st) * p.dt) +
      p.theta * (st.C_G_s + (r_sorption p st / p.theta) * p.dt) = Ctot p st := by
    rw [hdeg, Ctot]
    field_simp
    ring
  have hmul := mul_le_mul_of_nonneg_left hv hθ.le
  show Ctot p st ≤ (stepState p st).C_G_aq + p.theta * (stepState p st).C_G_s
  simp only [stepState]
  linarith [hu, hmul, hsum]

/-! ### Further concrete parameter sets -/

/-- Valid parameters with zero initial total contaminant mass. -/
def zeroMassParams : Params :=
  ⟨0, 0, 0, 10, 2/25, 20, 1/20, 1/200, 3/10, 50, 1/10, 1/10, 3/5, 1/50, 1, 1⟩

/-- Valid parameters with zero initial total mass and zero biomass. -/
def zeroAllParams : Params :=
  ⟨0, 0, 0, 0, 2/25, 20, 1/20, 1/200, 3/10, 50, 1/10, 1/10, 3/5, 1/50, 1, 1⟩

/-- Valid parameters with zero biomass but positive initial mass. -/
def noBiomassParams : Params :=
  ⟨100, 0, 0, 0, 2/25, 20, 1/20, 1/200, 3/10, 50, 1/10, 1/10, 3/5, 1/50, 1, 1⟩

/-- Valid parameters with `k_max = 0`, `k_sorp = 0` and zero initial
total mass. -/
def zeroKParams : Params :=
  ⟨0, 0, 0, 10, 0, 20, 1/20, 1/200, 3/10, 50, 0, 1/10, 3/5, 1/50, 1, 1⟩

/-- Valid parameters with `k_max = 0`, `k_sorp = 0` and positive initial
mass. -/
def constParams : Params :=
  ⟨100, 0, 0, 10, 0, 20, 1/20, 1/200, 3/10, 50, 0, 1/10, 3/5, 1/50, 1, 1⟩

/-! ### Claim C5 -/

/-- C5 (amended): on the faithfulness domain of the embedding (positive
`dt` and `theta`, nonnegative `K_s`, nonzero `K_d`, nonnegative initial
concentrations) every snapshot's four concentration fields are
nonnegative; the removal percentage lies in `[0, 100]` provided the
initial total mass is nonzero (when it is zero the removal percentage is
`NaN`, see the counterexample and C10). -/
theorem snapshot_bounds_amended (p : Params) (hdt : 0 < p.dt)
    (hKs : 0 ≤ p.K_s) (hKd : p.K_d ≠ 0) (hθ : 0 < p.theta)
    (ha0 : 0 ≤ p.C_G_aq_0) (hs0 : 0 ≤ p.C_G_s_0) (hc0 : 0 ≤ p.C_A_aq_0)
    (hx0 : 0 ≤ p.X_0) :
    ∀ r ∈ (runSimulation p).getD [],
      0 ≤ r.C_G_aq ∧ 0 ≤ r.C_G_s ∧ 0 ≤ r.C_A_aq ∧ 0 ≤ r.X ∧
      (C_total_0 p ≠ 0 →
        ∃ q, r.removal_percent = JsNum.num q ∧ 0 ≤ q ∧ q ≤ 100) := by
  intro r hr
  rw [runSimulation, if_pos (Or.inl hdt), Option.getD_some] at hr
  obtain ⟨t', st', -, rfl⟩ := simLoop_mem_inv p (fun _ => True)
    (fun _ _ => trivial) _ _ _ trivial r hr
  exact ⟨le_max_left _ _, le_max_left _ _, le_max_left _ _, le_max_left _ _,
    fun h0 => mkSnapshot_removal_range p t' st' h0⟩

/-- Counterexample to C5 as stated: with a zero initial total mass (a
valid input: all initial concentrations are 0) the very first snapshot's
removal percentage is `NaN`, which is not a number in `[0, 100]`. -/
theorem snapshot_bounds_cex :
    mkSnapshot zeroMassParams 0 (initState zeroMassParams) ∈
      (runSimulation zeroMassParams).getD [] ∧
    (mkSnapshot zeroMassParams 0 (initState zeroMassParams)).removal_percent =
      JsNum.nan ∧
    ∀ q : ℚ, JsNum.nan ≠ JsNum.num q := by
  refine ⟨head_mem_run zeroMassParams (by norm_num [zeroMassParams])
    (by norm_num [zeroMassParams]), ?_, fun q h => JsNum.noConfusion h⟩
  have hC : Ctot zeroMassParams (initState zeroMassParams) = 0 := by
    norm_num [Ctot, initState, zeroMassParams]
  have hC0 : C_total_0 zeroMassParams = 0 := by
    norm_num [C_total_0, zeroMassParams]
  simp only [mkSnapshot, hC, hC0]
  simp [JsNum.divNum, JsNum.sub, JsNum.mulNum, JsNum.jmax, JsNum.jmin]

/-- Witness for C5's amended statement. -/
theorem snapshot_bounds_amended_w :
    0 ≤ (mkSnapshot goldenParams 0 (initState goldenParams)).C_G_aq ∧
    ∃ q, (mkSnapshot goldenParams 0 (initState goldenParams)).removal_percent =
      JsNum.num q ∧ 0 ≤ q ∧ q ≤ 100 := by
  have h := snapshot_bounds_amended goldenParams (by norm_num [goldenParams])
    (by norm_num [goldenParams]) (by norm_num [goldenParams])
    (by norm_num [goldenParams]) (by norm_num [goldenParams])
    (by norm_num [goldenParams]) (by norm_num [goldenParams])
    (by norm_num [goldenParams])
    (mkSnapshot goldenParams 0 (initState goldenParams))
    (head_mem_run goldenParams (by norm_num [goldenParams])
      (by norm_num [goldenParams]))
  exact ⟨h.1, h.2.2.2.2 (by norm_num [C_total_0, goldenParams])⟩

/-! ### Claim C10 -/

/-- C10 (confirmed): the epsilon guard protects only the Monod
denominator; when the initial total mass `C_G_aq_0 + theta * C_G_s_0` is
zero (with valid nonnegative initial concentrations), the removal
normalization divides zero by zero and every emitted snapshot's
`removal_percent` is `NaN` — the `[0, 100]` clamp propagates `NaN`
instead of replacing it. -/
theorem removal_nan_zero_mass (p : Params) (hdt : 0 < p.dt)
    (hKs : 0 ≤ p.K_s) (hKd : p.K_d ≠ 0) (hθ : 0 < p.theta)
    (ha0 : 0 ≤ p.C_G_aq_0) (hs0 : 0 ≤ p.C_G_s_0)
    (hzero : C_total_0 p = 0) :
    ∀ r ∈ (runSimulation p).getD [], r.removal_percent = JsNum.nan := by
  have htot : p.theta * p.C_G_s_0 = 0 ∧ p.C_G_aq_0 = 0 := by
    rw [C_total_0] at hzero
    have h1 : 0 ≤ p.theta * p.C_G_s_0 := mul_nonneg hθ.le hs0
    constructor <;> linarith
  have hs00 : p.C_G_s_0 = 0 := by
    rcases mul_eq_zero.mp htot.1 with h | h
    · exact absurd h (ne_of_gt hθ)
    · exact h
  have hstep : ∀ st, (st.C_G_aq = 0 ∧ st.C_G_s = 0) →
      ((stepState p st).C_G_aq = 0 ∧ (stepState p st).C_G_s = 0) := by
    intro st hA
    constructor
    · show max 0 (st.C_G_aq + (-(r_degradation p st) - r_sorption p st) * p.dt) = 0
      simp only [r_degradation, r_sorption, monod, hA.1, hA.2]
      norm_num
    · show max 0 (st.C_G_s + (r_sorption p st / p.theta) * p.dt) = 0
      simp only [r_sorption, hA.1, hA.2]
      norm_num
  intro r hr
  rw [runSimulation, if_pos (Or.inl hdt), Option.getD_some] at hr
  obtain ⟨t', st', hP, rfl⟩ := simLoop_mem_inv p _ hstep _ _ _
    ⟨show (initState p).C_G_aq = 0 from htot.2,
     show (initState p).C_G_s = 0 from hs00⟩ r hr
  have hC : Ctot p st' = 0 := by rw [Ctot, hP.1, hP.2]; ring
  simp only [mkSnapshot, hC, hzero]
  simp [JsNum.divNum, JsNum.sub, JsNum.mulNum, JsNum.jmax, JsNum.jmin]

/-- Witness for C10 at a concrete zero-mass parameter set. -/
theorem removal_nan_zero_mass_w :
    (mkSnapshot zeroAllParams 0 (initState zeroAllParams)).removal_percent =
      JsNum.nan :=
  removal_nan_zero_mass zeroAllParams (by norm_num [zeroAllParams])
    (by norm_num [zeroAllParams]) (by norm_num [zeroAllParams])
    (by norm_num [zeroAllParams]) (by norm_num [zeroAllParams])
    (by norm_num [zeroAllParams]) (by norm_num [C_total_0, zeroAllParams]) _
    (head_mem_run zeroAllParams (by norm_num [zeroAllParams])
      (by norm_num [zeroAllParams]))

/-! ### Claim C4 -/

/-- C4 (amended): with zero initial biomass, every snapshot has `X = 0`,
and — provided the initial total mass is positive — every snapshot's
removal percentage is exactly 0 (when the initial total mass is zero the
removal percentage is `NaN` instead, see the counterexample). -/
theorem biomass_zero_amended (p : Params) (hdt : 0 < p.dt)
    (hKs : 0 ≤ p.K_s) (hKd : p.K_d ≠ 0) (hθ : 0 < p.theta)
    (ha0 : 0 ≤ p.C_G_aq_0) (hs0 : 0 ≤ p.C_G_s_0) (hX0 : p.X_0 = 0) :
    ∀ r ∈ (runSimulation p).getD [],
      r.X = 0 ∧ (0 < C_total_0 p → r.removal_percent = JsNum.num 0) := by
  have hstep : ∀ st, (st.X = 0 ∧ C_total_0 p ≤ Ctot p st) →
      ((stepState p st).X = 0 ∧ C_total_0 p ≤ Ctot p (stepState p st)) := by
    intro st hI
    constructor
    · show max 0 (st.X + (r_growth p st - r_death p st) * p.dt) = 0
      simp only [r_growth, r_death, hI.1]
      norm_num
    · exact le_trans hI.2 (Ctot_step_ge_of_X0 p hθ st hI.1)
  intro r hr
  rw [runSimulation, if_pos (Or.inl hdt), Option.getD_some] at hr
  obtain ⟨t', st', hP, rfl⟩ := simLoop_mem_inv p _ hstep _ _ _
    ⟨show (initState p).X = 0 from hX0, le_refl _⟩ r hr
  constructor
  · show max 0 st'.X = 0
    rw [hP.1]
    norm_num
  · intro hpos
    exact mkSnapshot_removal_zero p t' st' hpos hP.2

/-- Counterexample to C4 as stated: with zero initial biomass **and**
zero initial total mass (still a valid input) the removal percentage is
`NaN`, not 0, in the very first snapshot. -/
theorem biomass_zero_nan_cex :
    zeroAllParams.X_0 = 0 ∧
    mkSnapshot zeroAllParams 0 (initState zeroAllParams) ∈
      (runSimulation zeroAllParams).getD [] ∧
    (mkSnapshot zeroAllParams 0 (initState zeroAllParams)).removal_percent =
      JsNum.nan ∧
    JsNum.nan ≠ JsNum.num 0 := by
  refine ⟨rfl, head_mem_run zeroAllParams (by norm_num [zeroAllParams])
    (by norm_num [zeroAllParams]), ?_, fun h => JsNum.noConfusion h⟩
  have hC : Ctot zeroAllParams (initState zeroAllParams) = 0 := by
    norm_num [Ctot, initState, zeroAllParams]
  have hC0 : C_total_0 zeroAllParams = 0 := by
    norm_num [C_total_0, zeroAllParams]
  simp only [mkSnapshot, hC, hC0]
  simp [JsNum.divNum, JsNum.sub, JsNum.mulNum, JsNum.jmax, JsNum.jmin]

/-- Witness for C4's amended statement. -/
theorem biomass_zero_amended_w :
    (mkSnapshot noBiomassParams 0 (initState noBiomassParams)).X = 0 ∧
    (mkSnapshot noBiomassParams 0 (initState noBiomassParams)).removal_percent =
      JsNum.num 0 := by
  have h := biomass_zero_amended noBiomassParams (by norm_num [noBiomassParams])
    (by norm_num [noBiomassParams]) (by norm_num [noBiomassParams])
    (by norm_num [noBiomassParams]) (by norm_num [noBiomassParams])
    (by norm_num [noBiomassParams]) (by norm_num [noBiomassParams])
    (mkSnapshot noBiomassParams 0 (initState noBiomassParams))
    (head_mem_run noBiomassParams (by norm_num [noBiomassParams])
      (by norm_num [noBiomassParams]))
  exact ⟨h.1, h.2 (by norm_num [C_total_0, noBiomassParams])⟩

/-! ### Claim C6 -/

/-- C6 (amended): with `k_max = 0` and `k_sorp = 0`, the aqueous
concentration field equals `C_G_aq_0` in every snapshot; the removal
percentage is 0 in every snapshot provided the initial total mass is
positive (when it is zero the removal percentage is `NaN` instead, see
the counterexample). -/
theorem no_dynamics_amended (p : Params) (hdt : 0 < p.dt)
    (hKs : 0 ≤ p.K_s) (hKd : p.K_d ≠ 0) (hθ : 0 < p.theta)
    (ha0 : 0 ≤ p.C_G_aq_0) (hs0 : 0 ≤ p.C_G_s_0)
    (hkmax : p.k_max = 0) (hksorp : p.k_sorp = 0) :
    ∀ r ∈ (runSimulation p).getD [],
      r.C_G_aq = p.C_G_aq_0 ∧
      (0 < C_total_0 p → r.removal_percent = JsNum.num 0) := by
  have hstep : ∀ st, (st.C_G_aq = p.C_G_aq_0 ∧ st.C_G_s = p.C_G_s_0) →
      ((stepState p st).C_G_aq = p.C_G_aq_0 ∧
        (stepState p st).C_G_s = p.C_G_s_0) := by
    intro st hA
    constructor
    · show max 0 (st.C_G_aq + (-(r_degradation p st) - r_sorption p st) * p.dt) =
        p.C_G_aq_0
      simp only [r_degradation, r_sorption, hkmax, hksorp, zero_mul, neg_zero,
        sub_zero, zero_sub, neg_neg, add_zero, hA.1]
      rw [max_eq_right ha0]
    · show max 0 (st.C_G_s + (r_sorption p st / p.theta) * p.dt) = p.C_G_s_0
      simp only [r_sorption, hksorp, zero_mul, zero_div, add_zero, hA.2]
      rw [max_eq_right hs0]
  intro r hr
  rw [runSimulation, if_pos (Or.inl hdt), Option.getD_some] at hr
  obtain ⟨t', st', hP, rfl⟩ := simLoop_mem_inv p _ hstep _ _ _ ⟨rfl, rfl⟩ r hr
  constructor
  · show max 0 st'.C_G_aq = p.C_G_aq_0
    rw [hP.1, max_eq_right ha0]
  · intro hpos
    apply mkSnapshot_removal_zero p t' st' hpos
    rw [Ctot, hP.1, hP.2]
    exact le_refl _

/-- Counterexample to C6 as stated: with `k_max = 0`, `k_sorp = 0` and a
zero initial total mass (a valid input) the removal percentage of the
very first snapshot is `NaN`, not 0. -/
theorem no_dynamics_cex :
    zeroKParams.k_max = 0 ∧ zeroKParams.k_sorp = 0 ∧
    mkSnapshot zeroKParams 0 (initState zeroKParams) ∈
      (runSimulation zeroKParams).getD [] ∧
    (mkSnapshot zeroKParams 0 (initState zeroKParams)).removal_percent =
      JsNum.nan ∧
    JsNum.nan ≠ JsNum.num 0 := by
  refine ⟨rfl, rfl, head_mem_run zeroKParams (by norm_num [zeroKParams])
    (by norm_num [zeroKParams]), ?_, fun h => JsNum.noConfusion h⟩
  have hC : Ctot zeroKParams (initState zeroKParams) = 0 := by
    norm_num [Ctot, initState, zeroKParams]
  have hC0 : C_total_0 zeroKParams = 0 := by
    norm_num [C_total_0, zeroKParams]
  simp only [mkSnapshot, hC, hC0]
  simp [JsNum.divNum, JsNum.sub, JsNum.mulNum, JsNum.jmax, JsNum.jmin]

/-- Witness for C6's amended statement. -/
theorem no_dynamics_amended_w :
    (mkSnapshot constParams 0 (initState constParams)).C_G_aq = 100 ∧
    (mkSnapshot constParams 0 (initState constParams)).removal_percent =
      JsNum.num 0 := by
  have h := no_dynamics_amended constParams (by norm_num [constParams])
    (by norm_num [constParams]) (by norm_num [constParams])
    (by norm_num [constParams]) (by norm_num [constParams])
    (by norm_num [constParams]) rfl rfl
    (mkSnapshot constParams 0 (initState constParams))
    (head_mem_run constParams (by norm_num [constParams])
      (by norm_num [constParams]))
  exact ⟨h.1, h.2 (by norm_num [C_total_0, constParams])⟩

/-! ### Claim C3: the golden scenario -/

/-- Core inequality behind the golden scenario: one clamped Euler step of
the golden parameters cannot increase the total mass `a + s/10`
(`D` stands for the nonnegative degradation rate). -/
lemma golden_mono_core (a s x D : ℚ) (ha : 0 ≤ a) (hs : 0 ≤ s) (hD : 0 ≤ D) :
    max 0 (a + (-D - 1/10*(a - s/50)) * (1/2)) +
      1/10 * max 0 (s + (1/10*(a - s/50)/(1/10)) * (1/2)) ≤ a + 1/10 * s := by
  have hq : (1/10*(a - s/50)/(1/10)) = a - s/50 := by ring
  rw [hq]
  have hv0 : 0 ≤ s + (a - s/50) * (1/2) := by linarith
  rw [max_eq_right hv0]
  rcases le_or_lt 0 (a + (-D - 1/10*(a - s/50)) * (1/2)) with hu | hu
  · rw [max_eq_right hu]
    linarith
  · rw [max_eq_left hu.le]
    linarith

lemma golden_mono (st : SimState) (ha : 0 ≤ st.C_G_aq) (hs : 0 ≤ st.C_G_s)
    (hx : 0 ≤ st.X) :
    Ctot goldenParams (stepState goldenParams st) ≤ Ctot goldenParams st := by
  obtain ⟨a, s, c, x⟩ := st
  dsimp only at ha hs hx
  have heps : (0:ℚ) < eps := by norm_num [eps]
  have hden : (0:ℚ) < 20 + a + eps := by linarith
  have hD : 0 ≤ 2/25 * (a/(20 + a + eps)) * x :=
    mul_nonneg (mul_nonneg (by norm_num) (div_nonneg ha hden.le)) hx
  exact golden_mono_core a s x (2/25 * (a/(20 + a + eps)) * x) ha hs hD

lemma stepN_field_nonneg (p : Params) (n : ℕ) (st : SimState)
    (h1 : 0 ≤ st.C_G_aq) (h2 : 0 ≤ st.C_G_s) (h3 : 0 ≤ st.X) :
    0 ≤ (stepN p n st).C_G_aq ∧ 0 ≤ (stepN p n st).C_G_s ∧
      0 ≤ (stepN p n st).X := by
  cases n with
  | zero => exact ⟨h1, h2, h3⟩
  | succ n => exact ⟨le_max_left _ _, le_max_left _ _, le_max_left _ _⟩

lemma golden_chain (n : ℕ) :
    Ctot goldenParams (stepN goldenParams (n+1) (initState goldenParams)) ≤
      Ctot goldenParams (stepN goldenParams 1 (initState goldenParams)) := by
  induction n with
  | zero => exact le_refl _
  | succ n ih =>
      have hf := stepN_field_nonneg goldenParams (n+1) (initState goldenParams)
        (by norm_num [initState, goldenParams])
        (by norm_num [initState, goldenParams])
        (by norm_num [initState, goldenParams])
      exact le_trans (golden_mono _ hf.1 hf.2.1 hf.2.2) ih

lemma golden_Ctot1 :
    Ctot goldenParams (stepN goldenParams 1 (initState goldenParams)) < 100 := by
  norm_num [Ctot, stepN, stepState, r_degradation, r_sorption, r_growth,
    r_death, r_AMPA_formation, r_AMPA_degradation, monod, initState,
    goldenParams, eps, max_def]

lemma golden_numIters : numIters goldenParams = 673 := by
  rw [numIters, if_pos ⟨by norm_num [goldenParams], by norm_num [goldenParams]⟩]
  have hf : ⌊goldenParams.t_final / goldenParams.dt⌋ = 672 := by
    norm_num [goldenParams]
  rw [hf]
  rfl

/-- C3 (confirmed): the golden scenario.  On `goldenParams` the
trajectory has exactly 673 snapshots, its first snapshot has `time_h = 0`
and removal 0, and the last snapshot's removal percentage is a number
strictly greater than the first snapshot's 0. -/
theorem golden_scenario :
    ∃ L, runSimulation goldenParams = some L ∧ L.length = 673 ∧
      (∃ r0, L.head? = some r0 ∧ r0.time_h = 0 ∧
        r0.removal_percent = JsNum.num 0) ∧
      (∃ rl ql, L.getLast? = some rl ∧ rl.removal_percent = JsNum.num ql ∧
        0 < ql) := by
  refine ⟨simLoop goldenParams (initState goldenParams) 0 (numIters goldenParams),
    by rw [runSimulation, if_pos (Or.inl (by norm_num [goldenParams]))], ?_, ?_, ?_⟩
  · rw [simLoop_length, golden_numIters]
  · rw [golden_numIters]
    refine ⟨mkSnapshot goldenParams 0 (initState goldenParams),
      simLoop_head goldenParams 672 _ 0, rfl, ?_⟩
    exact mkSnapshot_removal_zero goldenParams 0 (initState goldenParams)
      (by norm_num [C_total_0, goldenParams])
      (by norm_num [C_total_0, Ctot, initState, goldenParams])
  · rw [golden_numIters]
    have hlast := simLoop_getLast goldenParams 672 (initState goldenParams) 0
    have hC0ne : C_total_0 goldenParams ≠ 0 := by
      norm_num [C_total_0, goldenParams]
    have hC100 : Ctot goldenParams (stepN goldenParams 672 (initState goldenParams)) < 100 :=
      lt_of_le_of_lt (golden_chain 671) golden_Ctot1
    have hC0 : C_total_0 goldenParams = 100 := by
      norm_num [C_total_0, goldenParams]
    refine ⟨_, min 100 (max 0 (100 * (1 -
        Ctot goldenParams (stepN goldenParams 672 (initState goldenParams)) /
          C_total_0 goldenParams))), hlast, ?_, ?_⟩
    · simp only [mkSnapshot]
      rw [JsNum.divNum, if_neg hC0ne]
      rfl
    · have hv : 0 < 100 * (1 -
          Ctot goldenParams (stepN goldenParams 672 (initState goldenParams)) /
            C_total_0 goldenParams) := by
        rw [hC0]
        have : Ctot goldenParams (stepN goldenParams 672 (initState goldenParams)) / 100 < 1 := by
          rw [div_lt_one (by norm_num : (0:ℚ) < 100)]
          exact hC100
        linarith
      exact lt_min (by norm_num) (lt_of_lt_of_le hv (le_max_right _ _))

end BioSlurry
